import Mathlib

/-!
Verification of the Tor settings logic of
`src/desktop/src/onionshare/tor_settings_tab.py` (class `TorSettingsTab`).

The development shallowly embeds the decision logic of that file:

* the bridge-line validation loop of `settings_from_fields` (lines 815-855),
  including the four regular expressions compiled there (lines 827-838),
  as an executable Brzozowski-derivative regex matcher;
* the settings record produced by `settings_from_fields` (lines 733-859);
* the `changed` comparison and the reboot decision of `save_clicked`
  (lines 609-686);
* the effect traces of `save_clicked`, `test_tor_clicked` (lines 583-607),
  `tor_con_success` (688-716) and `tor_con_fail` (718-731).

Widget construction, show/hide toggling, logging and localization are
presentation-only and are not modelled; the effect lists below record the
calls that matter to the contracts: settings persistence, Onion cleanup,
starting a Tor connection attempt, closing the tab, and cleaning up the
throwaway test Onion.
-/

namespace TorSettings

/-! ### A small executable regex engine

Python's `re` module is modelled by classical regular expressions with
character classes, matched via Brzozowski derivatives.  `re.match` anchors
at the start of the string and matches a prefix; a pattern ending in `$`
therefore matches the whole string (the lines fed to the patterns never
contain a newline, so the `$`-before-trailing-newline special case cannot
arise). -/

inductive RE where
  | nul
  | eps
  | cls (p : Char → Bool)
  | cat (a b : RE)
  | alt (a b : RE)
  | star (a : RE)

/-- Does the regex accept the empty string? -/
def RE.nullable : RE → Bool
  | .nul => false
  | .eps => true
  | .cls _ => false
  | .cat a b => a.nullable && b.nullable
  | .alt a b => a.nullable || b.nullable
  | .star _ => true

/-- Concatenation, simplifying the empty and the impossible language. -/
def RE.scat : RE → RE → RE
  | .nul, _ => .nul
  | .eps, b => b
  | a, b =>
    match b with
    | .nul => .nul
    | .eps => a
    | _ => .cat a b

/-- Alternation, simplifying the impossible language. -/
def RE.salt : RE → RE → RE
  | .nul, b => b
  | a, b =>
    match b with
    | .nul => a
    | _ => .alt a b

/-- Brzozowski derivative of a regex with respect to one character. -/
def RE.deriv (c : Char) : RE → RE
  | .nul => .nul
  | .eps => .nul
  | .cls p => if p c then .eps else .nul
  | .cat a b =>
    if a.nullable then .salt (.scat (RE.deriv c a) b) (RE.deriv c b)
    else .scat (RE.deriv c a) b
  | .alt a b => .salt (RE.deriv c a) (RE.deriv c b)
  | .star a => .scat (RE.deriv c a) (.star a)

/-- Whole-list matching: fold the derivative over the characters and test
nullability.  This is full-string (anchored) matching. -/
def rmatch (r : RE) (s : List Char) : Bool :=
  (s.foldl (fun r c => RE.deriv c r) r).nullable

/-- Python `re.match` semantics: the pattern must match a prefix of the
string, the rest is arbitrary.  Encoded by appending an unconstrained
star to the pattern. -/
def pyrematch (r : RE) (s : List Char) : Bool :=
  rmatch (RE.cat r (RE.star (RE.cls fun _ => true))) s

/-! ### Character classes and pattern combinators -/

/-- Python `\s` (ASCII whitespace; the source's bridge data is ASCII). -/
def isPySpace (c : Char) : Bool :=
  c == ' ' || c == '\t' || c == '\n' || c == '\r' || c == '\x0b' || c == '\x0c'

/-- A single literal character. -/
def rchar (c : Char) : RE := RE.cls (fun x => x == c)

/-- A literal string. -/
def rlit (s : String) : RE :=
  s.toList.foldr (fun c r => RE.cat (rchar c) r) RE.eps

/-- `r{n}`: exactly `n` copies. -/
def rrep (r : RE) : Nat → RE
  | 0 => RE.eps
  | n + 1 => RE.cat r (rrep r n)

/-- `r?`. -/
def ropt (r : RE) : RE := RE.alt r RE.eps

/-- `r+`. -/
def rplus (r : RE) : RE := RE.cat r (RE.star r)

/-- `r{m,n}`: encoded as `r{m}` followed by `n - m` optional copies. -/
def rrange (r : RE) (m n : Nat) : RE :=
  RE.cat (rrep r m) (rrep (ropt r) (n - m))

/-- Python `\s` as a class. -/
def wsp : RE := RE.cls isPySpace

/-- `[0-9]`. -/
def digit : RE := RE.cls Char.isDigit

/-- Python `.`: any character except a newline. -/
def dotAny : RE := RE.cls (fun c => !(c == '\n'))

/-- `[A-Z0-9]` (also written `[0-9A-Z]` in the source). -/
def ucAlnum : RE :=
  RE.cls (fun c => (decide ('A' ≤ c) && decide (c ≤ 'Z')) || c.isDigit)

/-- `[0-9a-fA-F]`. -/
def hexDigit : RE :=
  RE.cls (fun c =>
    c.isDigit || (decide ('a' ≤ c) && decide (c ≤ 'f'))
      || (decide ('A' ≤ c) && decide (c ≤ 'F')))

/-- `[0-9a-zA-Z]`. -/
def alnumAll : RE :=
  RE.cls (fun c =>
    c.isDigit || (decide ('a' ≤ c) && decide (c ≤ 'z'))
      || (decide ('A' ≤ c) && decide (c ≤ 'Z')))

/-- A digit range class such as `[0-5]`. -/
def digRange (lo hi : Char) : RE :=
  RE.cls (fun c => decide (lo ≤ c) && decide (c ≤ hi))

/-! ### The four bridge-line patterns (source lines 827-838) -/

/-- `([0-9]|[1-9][0-9]|1[0-9]{2}|2[0-4][0-9]|25[0-5])` — a 0-255 octet as
written in `ipv4_pattern`. -/
def octet1 : RE :=
  RE.alt digit
    (RE.alt (RE.cat (digRange '1' '9') digit)
      (RE.alt (RE.cat (rchar '1') (rrep digit 2))
        (RE.alt (RE.cat (rchar '2') (RE.cat (digRange '0' '4') digit))
          (RE.cat (rlit "25") (digRange '0' '5')))))

/-- `(obfs4\s+)?` — the optional obfs4 token shared by the ipv4 and ipv6
patterns. -/
def obfs4pre : RE := ropt (RE.cat (rlit "obfs4") (rplus wsp))

/-- `ipv4_pattern` (source line 827):
`(obfs4\s+)?(octet\.){3}octet:([0-9]+)(\s+)([A-Z0-9]+)(.+)$`. -/
def ipv4_pattern : RE :=
  RE.cat obfs4pre
    (RE.cat (rrep (RE.cat octet1 (rchar '.')) 3)
      (RE.cat octet1
        (RE.cat (rchar ':')
          (RE.cat (rplus digit)
            (RE.cat (rplus wsp)
              (RE.cat (rplus ucAlnum) (rplus dotAny)))))))

/-- `[0-9a-fA-F]{1,4}`. -/
def h14 : RE := rrange hexDigit 1 4

/-- `[0-9a-fA-F]{1,4}:`. -/
def hgrp : RE := RE.cat h14 (rchar ':')

/-- `:[0-9a-fA-F]{1,4}`. -/
def cgrp : RE := RE.cat (rchar ':') h14

/-- `(25[0-5]|(2[0-4]|1{0,1}[0-9]){0,1}[0-9])` — the octet form used in the
IPv4-mapped branches of `ipv6_pattern`. -/
def octet2 : RE :=
  RE.alt (RE.cat (rlit "25") (digRange '0' '5'))
    (RE.cat
      (ropt (RE.alt (RE.cat (rchar '2') (digRange '0' '4'))
        (RE.cat (ropt (rchar '1')) digit)))
      digit)

/-- `(octet2\.){3,3}octet2`. -/
def dotted2 : RE := RE.cat (rrep (RE.cat octet2 (rchar '.')) 3) octet2

/-- The big alternation inside the brackets of `ipv6_pattern`
(source line 830), branch by branch in source order. -/
def ipv6group : RE :=
  RE.alt (RE.cat (rrep hgrp 7) h14)
    (RE.alt (RE.cat (rrange hgrp 1 7) (rchar ':'))
      (RE.alt (RE.cat (rrange hgrp 1 6) cgrp)
        (RE.alt (RE.cat (rrange hgrp 1 5) (rrange cgrp 1 2))
          (RE.alt (RE.cat (rrange hgrp 1 4) (rrange cgrp 1 3))
            (RE.alt (RE.cat (rrange hgrp 1 3) (rrange cgrp 1 4))
              (RE.alt (RE.cat (rrange hgrp 1 2) (rrange cgrp 1 5))
                (RE.alt (RE.cat hgrp (rrange cgrp 1 6))
                  (RE.alt (RE.cat (rchar ':') (RE.alt (rrange cgrp 1 7) (rchar ':')))
                    (RE.alt
                      (RE.cat (rlit "fe80:")
                        (RE.cat (rrep (ropt (RE.cat (rchar ':') (rrep (ropt hexDigit) 4))) 4)
                          (RE.cat (rchar '%') (rplus alnumAll))))
                      (RE.alt
                        (RE.cat (rlit "::")
                          (RE.cat
                            (ropt (RE.cat (rlit "ffff")
                              (RE.cat (ropt (RE.cat (rchar ':') (rrange (rchar '0') 1 4)))
                                (rchar ':'))))
                            dotted2))
                        (RE.cat (RE.cat (rrange hgrp 1 4) (rchar ':')) dotted2)))))))))))

/-- `ipv6_pattern` (source line 830):
`(obfs4\s+)?\[(...)\]:[0-9]+\s+[A-Z0-9]+(.+)$`. -/
def ipv6_pattern : RE :=
  RE.cat obfs4pre
    (RE.cat (rchar '[')
      (RE.cat ipv6group
        (RE.cat (rlit "]:")
          (RE.cat (rplus digit)
            (RE.cat (rplus wsp)
              (RE.cat (rplus ucAlnum) (rplus dotAny)))))))

/-- `[0-9]+\.[0-9]+\.[0-9]+\.[0-9]+:[0-9]+` — the loose host:port form of the
meek_lite and snowflake patterns. -/
def loosehostport : RE :=
  RE.cat (rrep (RE.cat (rplus digit) (rchar '.')) 3)
    (RE.cat (rplus digit) (RE.cat (rchar ':') (rplus digit)))

/-- `meek_lite_pattern` (source line 833):
`(meek_lite)(\s)+(host:port)(\s)+([0-9A-Z]+)(\s)+url=(.+)(\s)+front=(.+)`. -/
def meek_lite_pattern : RE :=
  RE.cat (rlit "meek_lite")
    (RE.cat (rplus wsp)
      (RE.cat loosehostport
        (RE.cat (rplus wsp)
          (RE.cat (rplus ucAlnum)
            (RE.cat (rplus wsp)
              (RE.cat (rlit "url=")
                (RE.cat (rplus dotAny)
                  (RE.cat (rplus wsp)
                    (RE.cat (rlit "front=") (rplus dotAny))))))))))

/-- `snowflake_pattern` (source line 836):
`(snowflake)(\s)+(host:port)(\s)+([0-9A-Z]+)`. -/
def snowflake_pattern : RE :=
  RE.cat (rlit "snowflake")
    (RE.cat (rplus wsp)
      (RE.cat loosehostport
        (RE.cat (rplus wsp) (rplus ucAlnum))))

/-- One custom bridge line is accepted when any of the four patterns
matches it (source lines 839-844).  `ipv4_pattern` and `ipv6_pattern` end
in `$` and hence match the whole line; the meek_lite and snowflake
patterns have no `$` so `re.match` only requires a matching prefix. -/
def bridgeLineOK (bridge : List Char) : Bool :=
  rmatch ipv4_pattern bridge || rmatch ipv6_pattern bridge
    || pyrematch meek_lite_pattern bridge || pyrematch snowflake_pattern bridge

/-! ### The custom-bridge validation loop (source lines 821-850) -/

/-- Python `text.split("\n")`: split on every newline; the empty string
yields one empty group, a trailing newline yields a trailing empty group. -/
def splitNL : List Char → List (List Char)
  | [] => [[]]
  | c :: rest =>
    if c = '\n' then [] :: splitNL rest
    else
      match splitNL rest with
      | [] => [[c]]
      | g :: gs => (c :: g) :: gs

/-- Python `s.strip()`: drop leading and trailing whitespace. -/
def pyStrip (s : String) : String :=
  String.mk (((s.toList.dropWhile isPySpace).reverse.dropWhile isPySpace).reverse)

/-- The `for bridge in bridges` loop of `settings_from_fields`
(source lines 824-846): accumulate the accepted lines in `new_bridges`
and record in `bridges_valid` whether any line was accepted. -/
def collectLoop : List (List Char) → List (List Char) → Bool → List (List Char) × Bool
  | [], new_bridges, bridges_valid => (new_bridges, bridges_valid)
  | bridge :: rest, new_bridges, bridges_valid =>
    if bridge ≠ [] then
      if bridgeLineOK bridge then collectLoop rest (new_bridges ++ [bridge]) true
      else collectLoop rest new_bridges bridges_valid
    else collectLoop rest new_bridges bridges_valid

/-- The whole custom-bridge validation of `settings_from_fields`
(source lines 821-850): split the textbox content on newlines, keep the
lines accepted by `bridgeLineOK`, and on success re-join them with
newlines plus one trailing newline.  `none` models the `return False`
of the invalid case. -/
def validateCustomBridges (text : String) : Option String :=
  let r := collectLoop (splitNL text.toList) [] false
  if r.2 then some (String.mk (List.intercalate ['\n'] r.1 ++ ['\n']))
  else none

/-! ### The settings record and the UI field snapshot -/

/-- The settings keys that `TorSettingsTab` reads and writes, as a record.
The source stores them in an `onionshare_cli.settings.Settings` object by
string key; ports travel as the raw strings captured from the line
edits. -/
structure Settings where
  connection_type : String
  control_port_address : String
  control_port_port : String
  socket_file_path : String
  socks_address : String
  socks_port : String
  auth_type : String
  auth_password : String
  no_bridges : Bool
  tor_bridges_use_obfs4 : Bool
  tor_bridges_use_meek_lite_azure : Bool
  tor_bridges_use_snowflake : Bool
  tor_bridges_use_moat : Bool
  tor_bridges_use_moat_bridges : String
  tor_bridges_use_custom_bridges : String
deriving DecidableEq, Repr

/-- The widget values read by `settings_from_fields`: radio/checkbox states
and the raw text of the line edits and text boxes. -/
structure UIFields where
  connection_type_bundled_radio : Bool
  connection_type_automatic_radio : Bool
  connection_type_control_port_radio : Bool
  connection_type_socket_file_radio : Bool
  connection_type_control_port_extras_address : String
  connection_type_control_port_extras_port : String
  connection_type_socket_file_extras_path : String
  connection_type_socks_address : String
  connection_type_socks_port : String
  authenticate_no_auth_checked : Bool
  authenticate_password_extras_password : String
  bridge_use_checkbox : Bool
  bridge_builtin_radio : Bool
  bridge_builtin_dropdown : String
  bridge_moat_radio : Bool
  bridge_moat_text : String
  bridge_custom_radio : Bool
  bridge_custom_text : String
deriving DecidableEq, Repr

/-- The two ways `settings_from_fields` can `return False`: a blank moat
textbox (source lines 802-806, error string
`gui_settings_moat_bridges_invalid`) or no valid custom bridge line
(source lines 851-855, error string `gui_settings_tor_bridges_invalid`). -/
inductive BuildError where
  | moatBridgesEmpty
  | customBridgesInvalid
deriving DecidableEq, Repr

/-- Source lines 741-770: connection type from the four radios (four
separate `if`s, later ones overriding), the address/port/path/socks text
fields copied verbatim, and the auth fields. -/
def applyConnectionFields (ui : UIFields) (s0 : Settings) : Settings :=
  let s := s0
  let s := if ui.connection_type_bundled_radio then
      { s with connection_type := "bundled" } else s
  let s := if ui.connection_type_automatic_radio then
      { s with connection_type := "automatic" } else s
  let s := if ui.connection_type_control_port_radio then
      { s with connection_type := "control_port" } else s
  let s := if ui.connection_type_socket_file_radio then
      { s with connection_type := "socket_file" } else s
  let s := { s with
      control_port_address := ui.connection_type_control_port_extras_address,
      control_port_port := ui.connection_type_control_port_extras_port,
      socket_file_path := ui.connection_type_socket_file_extras_path,
      socks_address := ui.connection_type_socks_address,
      socks_port := ui.connection_type_socks_port }
  let s := if ui.authenticate_no_auth_checked then { s with auth_type := "no_auth" }
    else { s with auth_type := "password" }
  { s with auth_password := ui.authenticate_password_extras_password }

/-- Source lines 777-789: the builtin dropdown selection sets exactly one
of the three builtin flags; an unknown selection (possible when the
dropdown is empty because the pluggable-transport binaries are missing)
changes none of them. -/
def applyBuiltinSelection (selection : String) (s : Settings) : Settings :=
  if selection = "obfs4" then
    { s with tor_bridges_use_obfs4 := true,
             tor_bridges_use_meek_lite_azure := false,
             tor_bridges_use_snowflake := false }
  else if selection = "meek-azure" then
    { s with tor_bridges_use_obfs4 := false,
             tor_bridges_use_meek_lite_azure := true,
             tor_bridges_use_snowflake := false }
  else if selection = "snowflake" then
    { s with tor_bridges_use_obfs4 := false,
             tor_bridges_use_meek_lite_azure := false,
             tor_bridges_use_snowflake := true }
  else s

/-- Source lines 815-855: the `if self.bridge_custom_radio.isChecked():`
block, reached after the builtin and moat blocks fall through. -/
def applyCustomIf (ui : UIFields) (s : Settings) : Except BuildError Settings :=
  if ui.bridge_custom_radio then
    let s := { s with tor_bridges_use_obfs4 := false,
                      tor_bridges_use_meek_lite_azure := false,
                      tor_bridges_use_snowflake := false,
                      tor_bridges_use_moat := false }
    match validateCustomBridges ui.bridge_custom_text with
    | some new_bridges => .ok { s with tor_bridges_use_custom_bridges := new_bridges }
    | none => .error .customBridgesInvalid
  else .ok s

/-- `TorSettingsTab.settings_from_fields` (source lines 733-859).  The
function starts from the settings loaded from disk (`settings.load()`,
line 739), overwrites the connection and auth fields from the widgets,
then handles the bridge controls; `.error` models `return False`.  The
builtin, moat and custom blocks are three successive `if`s (not `elif`s);
the Qt radio group makes at most one of them checked at runtime, but the
sequential structure is kept here. -/
def settings_from_fields (ui : UIFields) (loaded : Settings) :
    Except BuildError Settings :=
  let s := applyConnectionFields ui loaded
  if ui.bridge_use_checkbox then
    let s := { s with no_bridges := false }
    let s := if ui.bridge_builtin_radio then
        { applyBuiltinSelection ui.bridge_builtin_dropdown s with
          tor_bridges_use_moat := false,
          tor_bridges_use_custom_bridges := "" }
      else s
    if ui.bridge_moat_radio then
      let s := { s with tor_bridges_use_obfs4 := false,
                        tor_bridges_use_meek_lite_azure := false,
                        tor_bridges_use_snowflake := false,
                        tor_bridges_use_moat := true }
      if pyStrip ui.bridge_moat_text = "" then .error .moatBridgesEmpty
      else
        let s := { s with tor_bridges_use_moat_bridges := ui.bridge_moat_text,
                          tor_bridges_use_custom_bridges := "" }
        applyCustomIf ui s
    else applyCustomIf ui s
  else
    .ok { s with no_bridges := true }

/-! ### The diff policy and the save / test flows -/

/-- A settings value as returned by `Settings.get`: the keys compared by
`save_clicked` hold either strings or booleans. -/
inductive SVal where
  | s (v : String)
  | b (v : Bool)
deriving DecidableEq, Repr

/-- String-keyed access to the settings record, as the source's
`settings.get(key)`.  Only the keys used by `TorSettingsTab` are mapped;
other keys do not occur. -/
def Settings.get (st : Settings) (key : String) : SVal :=
  if key = "connection_type" then .s st.connection_type
  else if key = "control_port_address" then .s st.control_port_address
  else if key = "control_port_port" then .s st.control_port_port
  else if key = "socket_file_path" then .s st.socket_file_path
  else if key = "socks_address" then .s st.socks_address
  else if key = "socks_port" then .s st.socks_port
  else if key = "auth_type" then .s st.auth_type
  else if key = "auth_password" then .s st.auth_password
  else if key = "no_bridges" then .b st.no_bridges
  else if key = "tor_bridges_use_obfs4" then .b st.tor_bridges_use_obfs4
  else if key = "tor_bridges_use_meek_lite_azure" then .b st.tor_bridges_use_meek_lite_azure
  else if key = "tor_bridges_use_snowflake" then .b st.tor_bridges_use_snowflake
  else if key = "tor_bridges_use_moat" then .b st.tor_bridges_use_moat
  else if key = "tor_bridges_use_moat_bridges" then .s st.tor_bridges_use_moat_bridges
  else if key = "tor_bridges_use_custom_bridges" then .s st.tor_bridges_use_custom_bridges
  else .s ""

/-- The local `changed(s1, s2, keys)` helper of `save_clicked`
(source lines 617-625): true when any listed key has different values. -/
def changed (s1 s2 : Settings) (keys : List String) : Bool :=
  keys.any fun key => decide (s1.get key ≠ s2.get key)

/-- The key list passed to `changed` in `save_clicked`
(source lines 644-657), in source order.  Note it contains
`tor_bridges_use_obfs4` and `tor_bridges_use_meek_lite_azure` but not
`tor_bridges_use_snowflake`, and neither moat key. -/
def rebootKeys : List String :=
  ["connection_type", "control_port_address", "control_port_port",
   "socks_address", "socks_port", "socket_file_path", "auth_type",
   "auth_password", "no_bridges", "tor_bridges_use_obfs4",
   "tor_bridges_use_meek_lite_azure", "tor_bridges_use_custom_bridges"]

/-- The two outcomes of the reconnect decision. -/
inductive TorAction where
  | noActionNeeded
  | mustReconnect
deriving DecidableEq, Repr

/-- The reboot decision of `save_clicked` (source lines 634-667): when the
Onion is authenticated, compare candidate and previous settings over
`rebootKeys`; when it is not, always reconnect. -/
def configDiffPolicy (candidate previous : Settings) (authenticated : Bool) :
    TorAction :=
  if authenticated then
    if changed candidate previous rebootKeys then .mustReconnect
    else .noActionNeeded
  else .mustReconnect

/-- Which of the two button flows started the Tor connection widget
(`self.tor_con_type`). -/
inductive TorConType where
  | test
  | save
deriving DecidableEq, Repr

/-- The collaborator calls that matter to the persistence and connection
contracts.  `saveSettings` is `settings.save()`, `onionCleanup` is
`self.common.gui.onion.cleanup()`, `torConStart s isolated` is
`self.tor_con.start(...)` (isolated with the throwaway `test_onion`),
`testOnionCleanup` is `self.test_onion.cleanup()`, `alertShown` is the
success `Alert`, `closeTab` is the `close_this_tab` signal.  Log lines,
label updates and widget show/hide are presentation and not recorded. -/
inductive Effect where
  | saveSettings (s : Settings)
  | onionCleanup
  | torConStart (s : Settings) (isolated : Bool)
  | closeTab
  | alertShown
  | testOnionCleanup
deriving DecidableEq, Repr

/-- What one button click did: the ordered effect trace, the
`tor_con_type` left behind when a connection attempt was started, and the
build error when `settings_from_fields` returned `False`. -/
structure ClickOutcome where
  effects : List Effect
  tor_con_type : Option TorConType
  buildError : Option BuildError
deriving DecidableEq, Repr

/-- `TorSettingsTab.save_clicked` (source lines 609-686).  `disk` is what
`settings.load()` reads inside `settings_from_fields`; `old_settings` is
the baseline loaded by `reload_settings`.  On a successful build the
settings are saved at once (line 630); then, unless running local-only,
the reboot decision picks between tearing down the Onion and starting a
connection attempt, or just closing the tab. -/
def save_clicked (ui : UIFields) (disk old_settings : Settings)
    (local_only onion_authenticated : Bool) : ClickOutcome :=
  match settings_from_fields ui disk with
  | .error e => { effects := [], tor_con_type := none, buildError := some e }
  | .ok settings =>
    if local_only then
      { effects := [.saveSettings settings, .closeTab],
        tor_con_type := none, buildError := none }
    else
      match configDiffPolicy settings old_settings onion_authenticated with
      | .mustReconnect =>
        { effects := [.saveSettings settings, .onionCleanup,
                      .torConStart settings false],
          tor_con_type := some .save, buildError := none }
      | .noActionNeeded =>
        { effects := [.saveSettings settings, .closeTab],
          tor_con_type := none, buildError := none }

/-- `TorSettingsTab.test_tor_clicked` (source lines 583-607): build the
candidate settings; on success start an isolated connection attempt with
a throwaway `Onion(use_tmp_dir=True)`.  `settings.save()` is never
called here. -/
def test_tor_clicked (ui : UIFields) (disk : Settings) : ClickOutcome :=
  match settings_from_fields ui disk with
  | .error e => { effects := [], tor_con_type := none, buildError := some e }
  | .ok settings =>
    { effects := [.torConStart settings true],
      tor_con_type := some .test, buildError := none }

/-- `TorSettingsTab.tor_con_success` (source lines 688-716): for a test,
show the success alert and clean up the throwaway Onion at once; for a
save, close the tab when the Onion is authenticated and the attempt was
not cancelled. -/
def tor_con_success (tor_con_type : Option TorConType)
    (onion_authenticated wasCanceled : Bool) : List Effect :=
  match tor_con_type with
  | some .test => [.alertShown, .testOnionCleanup]
  | some .save =>
    if onion_authenticated && !wasCanceled then [.closeTab] else []
  | none => []

/-- `TorSettingsTab.tor_con_fail` (source lines 718-731): show the error
message (presentation) and, for a test, clean up the throwaway Onion.
Nothing is un-saved. -/
def tor_con_fail (tor_con_type : Option TorConType) : List Effect :=
  match tor_con_type with
  | some .test => [.testOnionCleanup]
  | _ => []

/-! ### Concrete fixtures for the scenario claims and witnesses -/

/-- A concrete persisted settings record (the CLI's defaults). -/
def defSettings : Settings :=
  { connection_type := "bundled"
    control_port_address := "127.0.0.1"
    control_port_port := "9051"
    socket_file_path := ""
    socks_address := "127.0.0.1"
    socks_port := "9150"
    auth_type := "no_auth"
    auth_password := ""
    no_bridges := true
    tor_bridges_use_obfs4 := false
    tor_bridges_use_meek_lite_azure := false
    tor_bridges_use_snowflake := false
    tor_bridges_use_moat := false
    tor_bridges_use_moat_bridges := ""
    tor_bridges_use_custom_bridges := "" }

/-- A concrete widget snapshot: bundled connection, no bridges. -/
def uiBase : UIFields :=
  { connection_type_bundled_radio := true
    connection_type_automatic_radio := false
    connection_type_control_port_radio := false
    connection_type_socket_file_radio := false
    connection_type_control_port_extras_address := "127.0.0.1"
    connection_type_control_port_extras_port := "9051"
    connection_type_socket_file_extras_path := ""
    connection_type_socks_address := "127.0.0.1"
    connection_type_socks_port := "9150"
    authenticate_no_auth_checked := true
    authenticate_password_extras_password := ""
    bridge_use_checkbox := false
    bridge_builtin_radio := false
    bridge_builtin_dropdown := "obfs4"
    bridge_moat_radio := false
    bridge_moat_text := ""
    bridge_custom_radio := false
    bridge_custom_text := "" }

/-! ### Helper lemmas -/

/-- The validation loop, characterised: it appends to the accumulator the
lines that are non-empty and accepted, and the flag records whether any
such line exists. -/
theorem collectLoop_spec (l : List (List Char)) :
    ∀ (acc : List (List Char)) (v : Bool),
      collectLoop l acc v =
        (acc ++ l.filter (fun b => decide (b ≠ []) && bridgeLineOK b),
         v || l.any (fun b => decide (b ≠ []) && bridgeLineOK b)) := by
  induction l with
  | nil => intro acc v; simp [collectLoop]
  | cons b rest ih =>
    intro acc v
    by_cases hb : b = []
    · subst hb
      simp [collectLoop, ih]
    · by_cases hm : bridgeLineOK b
      · simp [collectLoop, hb, hm, ih]
      · simp [collectLoop, hb, hm, ih]

/-- `applyConnectionFields` copies the six text fields verbatim and leaves
every bridge field of the loaded settings unchanged. -/
theorem applyConnectionFields_spec (ui : UIFields) (s0 : Settings) :
    (applyConnectionFields ui s0).control_port_address
        = ui.connection_type_control_port_extras_address ∧
    (applyConnectionFields ui s0).control_port_port
        = ui.connection_type_control_port_extras_port ∧
    (applyConnectionFields ui s0).socket_file_path
        = ui.connection_type_socket_file_extras_path ∧
    (applyConnectionFields ui s0).socks_address
        = ui.connection_type_socks_address ∧
    (applyConnectionFields ui s0).socks_port
        = ui.connection_type_socks_port ∧
    (applyConnectionFields ui s0).auth_password
        = ui.authenticate_password_extras_password ∧
    (applyConnectionFields ui s0).no_bridges = s0.no_bridges ∧
    (applyConnectionFields ui s0).tor_bridges_use_obfs4
        = s0.tor_bridges_use_obfs4 ∧
    (applyConnectionFields ui s0).tor_bridges_use_meek_lite_azure
        = s0.tor_bridges_use_meek_lite_azure ∧
    (applyConnectionFields ui s0).tor_bridges_use_snowflake
        = s0.tor_bridges_use_snowflake ∧
    (applyConnectionFields ui s0).tor_bridges_use_moat
        = s0.tor_bridges_use_moat ∧
    (applyConnectionFields ui s0).tor_bridges_use_moat_bridges
        = s0.tor_bridges_use_moat_bridges ∧
    (applyConnectionFields ui s0).tor_bridges_use_custom_bridges
        = s0.tor_bridges_use_custom_bridges := by
  unfold applyConnectionFields
  split_ifs <;> simp

/-- `applyBuiltinSelection` touches only the three builtin flags. -/
theorem applyBuiltinSelection_frame (selection : String) (s : Settings) :
    (applyBuiltinSelection selection s).control_port_address = s.control_port_address ∧
    (applyBuiltinSelection selection s).control_port_port = s.control_port_port ∧
    (applyBuiltinSelection selection s).socket_file_path = s.socket_file_path ∧
    (applyBuiltinSelection selection s).socks_address = s.socks_address ∧
    (applyBuiltinSelection selection s).socks_port = s.socks_port ∧
    (applyBuiltinSelection selection s).auth_password = s.auth_password := by
  unfold applyBuiltinSelection
  split_ifs <;> simp

theorem get_connection_type (st : Settings) :
    st.get "connection_type" = SVal.s st.connection_type := rfl

theorem get_control_port_address (st : Settings) :
    st.get "control_port_address" = SVal.s st.control_port_address := rfl

theorem get_control_port_port (st : Settings) :
    st.get "control_port_port" = SVal.s st.control_port_port := rfl

theorem get_socket_file_path (st : Settings) :
    st.get "socket_file_path" = SVal.s st.socket_file_path := rfl

theorem get_socks_address (st : Settings) :
    st.get "socks_address" = SVal.s st.socks_address := rfl

theorem get_socks_port (st : Settings) :
    st.get "socks_port" = SVal.s st.socks_port := rfl

theorem get_auth_type (st : Settings) :
    st.get "auth_type" = SVal.s st.auth_type := rfl

theorem get_auth_password (st : Settings) :
    st.get "auth_password" = SVal.s st.auth_password := rfl

theorem get_no_bridges (st : Settings) :
    st.get "no_bridges" = SVal.b st.no_bridges := rfl

theorem get_obfs4 (st : Settings) :
    st.get "tor_bridges_use_obfs4" = SVal.b st.tor_bridges_use_obfs4 := rfl

theorem get_meek (st : Settings) :
    st.get "tor_bridges_use_meek_lite_azure"
      = SVal.b st.tor_bridges_use_meek_lite_azure := rfl

theorem get_custom (st : Settings) :
    st.get "tor_bridges_use_custom_bridges"
      = SVal.s st.tor_bridges_use_custom_bridges := rfl

/-! ### The claims -/

/-- C1: for every raw custom-bridge text block, the validation loop of
`settings_from_fields` accepts exactly the non-empty lines matched by one
of the four grammars, in their original order (blank lines dropped),
joins them with newlines plus one trailing newline, and succeeds exactly
when at least one line matched. -/
theorem c1_validator_filters_lines (text : String) :
    validateCustomBridges text =
      (if (splitNL text.toList).any (fun b => decide (b ≠ []) && bridgeLineOK b) then
        some (String.mk (List.intercalate ['\n']
          ((splitNL text.toList).filter
            (fun b => decide (b ≠ []) && bridgeLineOK b)) ++ ['\n']))
      else none) := by
  unfold validateCustomBridges
  rw [collectLoop_spec]
  simp

/-- The custom-bridge scenario snapshot of C5: custom bridges selected,
one well-formed obfs4 line followed by a garbage line. -/
def uiC5 : UIFields :=
  { uiBase with
    bridge_use_checkbox := true
    bridge_custom_radio := true
    bridge_custom_text :=
      "obfs4 192.0.2.1:443 ABCDEF0123456789ABCDEF0123456789ABCDEF01\nnotabridge\n" }

/-- C5: on the scenario input the builder succeeds and stores exactly the
valid line with a trailing newline as the custom-bridges value, the
garbage line dropped. -/
theorem c5_obfs4_scenario :
    Except.map (fun s => s.tor_bridges_use_custom_bridges)
        (settings_from_fields uiC5 defSettings)
      = Except.ok "obfs4 192.0.2.1:443 ABCDEF0123456789ABCDEF0123456789ABCDEF01\n" := by
  rfl

/-- C6: when the Onion session is not authenticated, the save-flow diff
decision is MustReconnect for every pair of configurations. -/
theorem c6_unauthenticated_always_reconnect (candidate previous : Settings) :
    configDiffPolicy candidate previous false = TorAction.mustReconnect := rfl

/-- Modelled from the spec's words for claim C3: the compared field set as
the claim states it, which includes the snowflake builtin flag.  The
code's actual list is `rebootKeys`, which omits it. -/
def specComparedKeys : List String :=
  rebootKeys ++ ["tor_bridges_use_snowflake"]

/-- A candidate differing from `prevC3` only in the snowflake flag. -/
def candC3 : Settings :=
  { defSettings with no_bridges := false, tor_bridges_use_snowflake := true }

/-- The previous baseline for the C3 counterexample. -/
def prevC3 : Settings := { defSettings with no_bridges := false }

/-- C3 counterexample: the claim's compared set (which includes the
snowflake flag) differs between these two configurations, yet the code's
decision with authenticated=true is NoActionNeeded — the code never
compares `tor_bridges_use_snowflake`. -/
theorem c3_snowflake_not_compared_cex :
    changed candC3 prevC3 specComparedKeys = true ∧
    configDiffPolicy candC3 prevC3 true = TorAction.noActionNeeded := by
  decide

/-- The comparison over the code's key list, written out field by field. -/
theorem changed_rebootKeys_iff (c p : Settings) :
    changed c p rebootKeys = true ↔
      (c.connection_type ≠ p.connection_type ∨
       c.control_port_address ≠ p.control_port_address ∨
       c.control_port_port ≠ p.control_port_port ∨
       c.socks_address ≠ p.socks_address ∨
       c.socks_port ≠ p.socks_port ∨
       c.socket_file_path ≠ p.socket_file_path ∨
       c.auth_type ≠ p.auth_type ∨
       c.auth_password ≠ p.auth_password ∨
       c.no_bridges ≠ p.no_bridges ∨
       c.tor_bridges_use_obfs4 ≠ p.tor_bridges_use_obfs4 ∨
       c.tor_bridges_use_meek_lite_azure ≠ p.tor_bridges_use_meek_lite_azure ∨
       c.tor_bridges_use_custom_bridges ≠ p.tor_bridges_use_custom_bridges) := by
  simp only [changed, rebootKeys, List.any_cons, List.any_nil,
    get_connection_type, get_control_port_address, get_control_port_port,
    get_socks_address, get_socks_port, get_socket_file_path, get_auth_type,
    get_auth_password, get_no_bridges, get_obfs4, get_meek, get_custom,
    Bool.or_eq_true, decide_eq_true_eq, Bool.or_false]
  simp [SVal.s.injEq, SVal.b.injEq]

/-- C3 amended: with an authenticated session the decision is
MustReconnect exactly when one of the fields the code actually compares
differs — the set of C3 minus the snowflake builtin flag (and the
decision on a configuration against itself is NoActionNeeded). -/
theorem c3_diff_policy_amended (candidate previous : Settings) :
    (configDiffPolicy candidate previous true = TorAction.mustReconnect ↔
      (candidate.connection_type ≠ previous.connection_type ∨
       candidate.control_port_address ≠ previous.control_port_address ∨
       candidate.control_port_port ≠ previous.control_port_port ∨
       candidate.socks_address ≠ previous.socks_address ∨
       candidate.socks_port ≠ previous.socks_port ∨
       candidate.socket_file_path ≠ previous.socket_file_path ∨
       candidate.auth_type ≠ previous.auth_type ∨
       candidate.auth_password ≠ previous.auth_password ∨
       candidate.no_bridges ≠ previous.no_bridges ∨
       candidate.tor_bridges_use_obfs4 ≠ previous.tor_bridges_use_obfs4 ∨
       candidate.tor_bridges_use_meek_lite_azure
          ≠ previous.tor_bridges_use_meek_lite_azure ∨
       candidate.tor_bridges_use_custom_bridges
          ≠ previous.tor_bridges_use_custom_bridges)) ∧
    configDiffPolicy candidate candidate true = TorAction.noActionNeeded := by
  constructor
  · rw [← changed_rebootKeys_iff candidate previous]
    unfold configDiffPolicy
    cases hcc : changed candidate previous rebootKeys <;> simp [hcc]
  · unfold configDiffPolicy
    have hself : changed candidate candidate rebootKeys = false := by
      simp [changed]
    simp [hself]

/-- A persisted settings record with several bridge fields set, for the C4
counterexample. -/
def loadedC4 : Settings :=
  { defSettings with
    no_bridges := false
    tor_bridges_use_obfs4 := true
    tor_bridges_use_moat := true
    tor_bridges_use_moat_bridges := "obfs4 1.2.3.4:1 AA x"
    tor_bridges_use_custom_bridges := "custom line" }

/-- C4 counterexample: with the "use bridges" checkbox unchecked
(`uiBase`), the build succeeds with bridges disabled but every
previously-set bridge field keeps its loaded value — nothing is cleared,
contradicting the claim that they are. -/
theorem c4_bridge_fields_not_cleared_cex :
    Except.map
        (fun s => (s.no_bridges, s.tor_bridges_use_obfs4, s.tor_bridges_use_moat,
          s.tor_bridges_use_moat_bridges, s.tor_bridges_use_custom_bridges))
        (settings_from_fields uiBase loadedC4)
      = Except.ok (true, true, true, "obfs4 1.2.3.4:1 AA x", "custom line") := by
  rfl

/-- C4 amended: if the "use bridges" checkbox is unchecked, the built
configuration has bridges disabled (`no_bridges = true`) and every
previously-set bridge field keeps the value loaded from the persisted
settings — the code does not clear them. -/
theorem c4_unchecked_no_bridges_amended (ui : UIFields) (loaded : Settings)
    (h : ui.bridge_use_checkbox = false) :
    settings_from_fields ui loaded
        = .ok { applyConnectionFields ui loaded with no_bridges := true } ∧
    (applyConnectionFields ui loaded).tor_bridges_use_obfs4
        = loaded.tor_bridges_use_obfs4 ∧
    (applyConnectionFields ui loaded).tor_bridges_use_meek_lite_azure
        = loaded.tor_bridges_use_meek_lite_azure ∧
    (applyConnectionFields ui loaded).tor_bridges_use_snowflake
        = loaded.tor_bridges_use_snowflake ∧
    (applyConnectionFields ui loaded).tor_bridges_use_moat
        = loaded.tor_bridges_use_moat ∧
    (applyConnectionFields ui loaded).tor_bridges_use_moat_bridges
        = loaded.tor_bridges_use_moat_bridges ∧
    (applyConnectionFields ui loaded).tor_bridges_use_custom_bridges
        = loaded.tor_bridges_use_custom_bridges := by
  obtain ⟨-, -, -, -, -, -, -, h8, h9, h10, h11, h12, h13⟩ :=
    applyConnectionFields_spec ui loaded
  refine ⟨?_, h8, h9, h10, h11, h12, h13⟩
  unfold settings_from_fields
  simp [h]

/-- Witness for C4's amended theorem at a concrete input. -/
theorem c4_unchecked_no_bridges_amended_witness :
    settings_from_fields uiBase loadedC4
      = .ok { applyConnectionFields uiBase loadedC4 with no_bridges := true } :=
  (c4_unchecked_no_bridges_amended uiBase loadedC4 rfl).1

/-- C7: moat selected with a blank (empty or whitespace-only) moat
textbox makes the build fail with the MoatBridgesEmpty error, and neither
button flow produces any effect: no connection attempt is started and
`settings.save()` is never reached, so the persisted configuration is
untouched. -/
theorem c7_moat_blank_fails (ui : UIFields) (disk old_settings : Settings)
    (local_only onion_authenticated : Bool)
    (h1 : ui.bridge_use_checkbox = true) (h2 : ui.bridge_moat_radio = true)
    (h3 : pyStrip ui.bridge_moat_text = "") :
    settings_from_fields ui disk = .error BuildError.moatBridgesEmpty ∧
    (save_clicked ui disk old_settings local_only onion_authenticated).effects = [] ∧
    (test_tor_clicked ui disk).effects = [] := by
  have hb : settings_from_fields ui disk = .error .moatBridgesEmpty := by
    unfold settings_from_fields
    simp [h1, h2, h3]
  refine ⟨hb, ?_, ?_⟩
  · unfold save_clicked
    rw [hb]
  · unfold test_tor_clicked
    rw [hb]

/-- The moat scenario snapshot of C7: moat selected, whitespace-only
textbox. -/
def uiC7 : UIFields :=
  { uiBase with
    bridge_use_checkbox := true
    bridge_moat_radio := true
    bridge_moat_text := "  " }

/-- Witness for C7 at a concrete input. -/
theorem c7_moat_blank_fails_witness :
    settings_from_fields uiC7 defSettings = .error BuildError.moatBridgesEmpty ∧
    (save_clicked uiC7 defSettings defSettings false false).effects = [] ∧
    (test_tor_clicked uiC7 defSettings).effects = [] :=
  c7_moat_blank_fails uiC7 defSettings defSettings false false rfl rfl rfl

/-- C8: custom bridges selected (the moat radio, being in the same
exclusive group, unchecked) with no line of the textbox matching any
grammar: the build fails with the CustomBridgesInvalid error, the
validator reports failure, and the accepted-lines result is empty. -/
theorem c8_custom_invalid_fails (ui : UIFields) (loaded : Settings)
    (h1 : ui.bridge_use_checkbox = true) (h2 : ui.bridge_custom_radio = true)
    (h3 : ui.bridge_moat_radio = false)
    (h4 : ∀ b ∈ splitNL ui.bridge_custom_text.toList,
      b = [] ∨ bridgeLineOK b = false) :
    settings_from_fields ui loaded = .error BuildError.customBridgesInvalid ∧
    validateCustomBridges ui.bridge_custom_text = none ∧
    (splitNL ui.bridge_custom_text.toList).filter
        (fun b => decide (b ≠ []) && bridgeLineOK b) = [] := by
  have hany : (splitNL ui.bridge_custom_text.toList).any
      (fun b => decide (b ≠ []) && bridgeLineOK b) = false := by
    rw [List.any_eq_false]
    intro b hb
    rcases h4 b hb with h | h <;> simp [h]
  have hv : validateCustomBridges ui.bridge_custom_text = none := by
    unfold validateCustomBridges
    rw [collectLoop_spec, hany]
    rfl
  have hfil : (splitNL ui.bridge_custom_text.toList).filter
      (fun b => decide (b ≠ []) && bridgeLineOK b) = [] := by
    rw [List.filter_eq_nil_iff]
    intro b hb hne
    rcases h4 b hb with h | h <;> simp [h] at hne
  refine ⟨?_, hv, hfil⟩
  unfold settings_from_fields applyCustomIf
  simp [h1, h2, h3, hv]

/-- The all-garbage custom-bridge snapshot of C8. -/
def uiC8 : UIFields :=
  { uiBase with
    bridge_use_checkbox := true
    bridge_custom_radio := true
    bridge_custom_text := "notabridge\n\n" }

/-- Witness for C8 at a concrete input. -/
theorem c8_custom_invalid_fails_witness :
    settings_from_fields uiC8 defSettings
      = .error BuildError.customBridgesInvalid :=
  (c8_custom_invalid_fails uiC8 defSettings rfl rfl rfl (by decide)).1

/-- C9: "use bridges" checked with none of the three bridge radios
selected: the build succeeds, only the bridges-disabled flag changes (to
false), and every bridge flag and bridge text field keeps the value
loaded from the persisted settings (the connection and auth fields come
from the widgets as always). -/
theorem c9_no_radio_frame (ui : UIFields) (loaded : Settings)
    (h1 : ui.bridge_use_checkbox = true) (h2 : ui.bridge_builtin_radio = false)
    (h3 : ui.bridge_moat_radio = false) (h4 : ui.bridge_custom_radio = false) :
    settings_from_fields ui loaded
        = .ok { applyConnectionFields ui loaded with no_bridges := false } ∧
    (applyConnectionFields ui loaded).tor_bridges_use_obfs4
        = loaded.tor_bridges_use_obfs4 ∧
    (applyConnectionFields ui loaded).tor_bridges_use_meek_lite_azure
        = loaded.tor_bridges_use_meek_lite_azure ∧
    (applyConnectionFields ui loaded).tor_bridges_use_snowflake
        = loaded.tor_bridges_use_snowflake ∧
    (applyConnectionFields ui loaded).tor_bridges_use_moat
        = loaded.tor_bridges_use_moat ∧
    (applyConnectionFields ui loaded).tor_bridges_use_moat_bridges
        = loaded.tor_bridges_use_moat_bridges ∧
    (applyConnectionFields ui loaded).tor_bridges_use_custom_bridges
        = loaded.tor_bridges_use_custom_bridges := by
  obtain ⟨-, -, -, -, -, -, -, h8, h9, h10, h11, h12, h13⟩ :=
    applyConnectionFields_spec ui loaded
  refine ⟨?_, h8, h9, h10, h11, h12, h13⟩
  unfold settings_from_fields applyCustomIf
  simp [h1, h2, h3, h4]

/-- The C9 snapshot: bridges checked, no radio selected. -/
def uiC9 : UIFields := { uiBase with bridge_use_checkbox := true }

/-- Witness for C9 at a concrete input. -/
theorem c9_no_radio_frame_witness :
    settings_from_fields uiC9 loadedC4
      = .ok { applyConnectionFields uiC9 loadedC4 with no_bridges := false } :=
  (c9_no_radio_frame uiC9 loadedC4 rfl rfl rfl rfl).1

/-- C10: the builder fails only for the two bridge reasons — a blank moat
textbox with moat selected, or custom selected with no valid line — and
whenever "use bridges" is unchecked, or checked with exactly the builtin
radio selected, it returns a configuration whose address, port, path and
password fields are the widget texts copied verbatim (never validated). -/
theorem c10_failure_only_bridges :
    (∀ (ui : UIFields) (loaded : Settings) (e : BuildError),
      settings_from_fields ui loaded = .error e →
        (ui.bridge_moat_radio = true ∧ pyStrip ui.bridge_moat_text = "") ∨
        (ui.bridge_custom_radio = true ∧
          validateCustomBridges ui.bridge_custom_text = none)) ∧
    (∀ (ui : UIFields) (loaded : Settings),
      ui.bridge_use_checkbox = false ∨
        (ui.bridge_use_checkbox = true ∧ ui.bridge_builtin_radio = true ∧
          ui.bridge_moat_radio = false ∧ ui.bridge_custom_radio = false) →
      ∃ s, settings_from_fields ui loaded = .ok s ∧
        s.control_port_address = ui.connection_type_control_port_extras_address ∧
        s.control_port_port = ui.connection_type_control_port_extras_port ∧
        s.socket_file_path = ui.connection_type_socket_file_extras_path ∧
        s.socks_address = ui.connection_type_socks_address ∧
        s.socks_port = ui.connection_type_socks_port ∧
        s.auth_password = ui.authenticate_password_extras_password) := by
  constructor
  · intro ui loaded e h
    unfold settings_from_fields applyCustomIf at h
    by_cases hu : ui.bridge_use_checkbox
    · simp only [hu, if_true] at h
      by_cases hm : ui.bridge_moat_radio
      · simp only [hm, if_true] at h
        by_cases hblank : pyStrip ui.bridge_moat_text = ""
        · exact Or.inl ⟨hm, hblank⟩
        · simp only [hblank, if_false] at h
          by_cases hc : ui.bridge_custom_radio
          · simp only [hc, if_true] at h
            cases hv : validateCustomBridges ui.bridge_custom_text with
            | none => exact Or.inr ⟨hc, rfl⟩
            | some nb =>
              rw [hv] at h
              simp at h
          · simp [hc] at h
      · simp only [hm, if_false] at h
        by_cases hc : ui.bridge_custom_radio
        · simp only [hc, if_true] at h
          cases hv : validateCustomBridges ui.bridge_custom_text with
          | none => exact Or.inr ⟨hc, rfl⟩
          | some nb =>
            rw [hv] at h
            simp at h
        · simp [hc] at h
    · simp [hu] at h
  · intro ui loaded h
    obtain ⟨hc1, hc2, hc3, hc4, hc5, hc6, -, -, -, -, -, -, -⟩ :=
      applyConnectionFields_spec ui loaded
    rcases h with h | ⟨hu, hb, hm, hc⟩
    · refine ⟨{ applyConnectionFields ui loaded with no_bridges := true },
        ?_, hc1, hc2, hc3, hc4, hc5, hc6⟩
      unfold settings_from_fields
      simp [h]
    · obtain ⟨f1, f2, f3, f4, f5, f6⟩ := applyBuiltinSelection_frame
        ui.bridge_builtin_dropdown
        { applyConnectionFields ui loaded with no_bridges := false }
      refine ⟨{ applyBuiltinSelection ui.bridge_builtin_dropdown
          { applyConnectionFields ui loaded with no_bridges := false } with
          tor_bridges_use_moat := false, tor_bridges_use_custom_bridges := "" },
        ?_, f1.trans hc1, f2.trans hc2, f3.trans hc3, f4.trans hc4,
        f5.trans hc5, f6.trans hc6⟩
      unfold settings_from_fields applyCustomIf
      simp [hu, hb, hm, hc]

/-- Witness for C10 at a concrete input (checkbox unchecked). -/
theorem c10_failure_only_bridges_witness :
    ∃ s, settings_from_fields uiBase defSettings = .ok s ∧
      s.control_port_address = uiBase.connection_type_control_port_extras_address ∧
      s.control_port_port = uiBase.connection_type_control_port_extras_port ∧
      s.socket_file_path = uiBase.connection_type_socket_file_extras_path ∧
      s.socks_address = uiBase.connection_type_socks_address ∧
      s.socks_port = uiBase.connection_type_socks_port ∧
      s.auth_password = uiBase.authenticate_password_extras_password :=
  c10_failure_only_bridges.2 uiBase defSettings (Or.inl rfl)

/-- Is an effect the `settings.save()` call? -/
def isSaveEffect : Effect → Bool
  | .saveSettings _ => true
  | _ => false

/-- C2 counterexample: a save action whose connection attempt fails.  The
click itself already emitted `settings.save()`, the outcome is a failed
save-type connection (`tor_con_fail` adds no compensation), so the full
trace of a save action that ended Failed contains the persistence call —
the claim that persistence happens only on Succeeded is false. -/
theorem c2_save_persists_before_outcome_cex :
    (save_clicked uiBase defSettings defSettings false false).tor_con_type
        = some TorConType.save ∧
    ((save_clicked uiBase defSettings defSettings false false).effects
        ++ tor_con_fail (some TorConType.save)).any isSaveEffect = true := by
  decide

/-- C2 amended: for a save action the candidate is persisted immediately
after a successful build — `settings.save()` is the first effect, before
the connection outcome is known — and a build failure emits nothing; the
test-action half of the claim holds: the test flow starts an isolated
attempt, never calls `settings.save()`, releases the throwaway Onion
immediately on success, and neither terminal handler ever persists. -/
theorem c2_persistence_contract_amended (ui : UIFields)
    (disk old_settings : Settings)
    (local_only onion_authenticated wasCanceled : Bool) :
    (∀ s, settings_from_fields ui disk = .ok s →
        (save_clicked ui disk old_settings local_only onion_authenticated).effects.head?
            = some (Effect.saveSettings s) ∧
        (test_tor_clicked ui disk).effects = [Effect.torConStart s true]) ∧
    (∀ e, settings_from_fields ui disk = .error e →
        (save_clicked ui disk old_settings local_only onion_authenticated).effects
          = []) ∧
    (test_tor_clicked ui disk).effects.any isSaveEffect = false ∧
    tor_con_success (some TorConType.test) onion_authenticated wasCanceled
        = [Effect.alertShown, Effect.testOnionCleanup] ∧
    (∀ t, (tor_con_fail t).any isSaveEffect = false) ∧
    (∀ t, (tor_con_success t onion_authenticated wasCanceled).any isSaveEffect
        = false) := by
  refine ⟨?_, ?_, ?_, rfl, ?_, ?_⟩
  · intro s hs
    constructor
    · unfold save_clicked
      rw [hs]
      cases local_only
      · simp only [Bool.false_eq_true, if_false]
        cases configDiffPolicy s old_settings onion_authenticated <;> simp
      · simp
    · unfold test_tor_clicked
      rw [hs]
  · intro e he
    unfold save_clicked
    rw [he]
  · unfold test_tor_clicked
    cases hs : settings_from_fields ui disk <;> simp [isSaveEffect]
  · intro t
    cases t with
    | none => rfl
    | some tc => cases tc <;> simp [tor_con_fail, isSaveEffect]
  · intro t
    cases t with
    | none => rfl
    | some tc =>
      cases tc
      · simp [tor_con_success, isSaveEffect]
      · unfold tor_con_success
        split_ifs <;> simp [isSaveEffect]

/-- Witness for C2's amended theorem at a concrete input. -/
theorem c2_persistence_contract_amended_witness :
    (save_clicked uiBase defSettings defSettings false false).effects.head?
        = some (Effect.saveSettings
            { applyConnectionFields uiBase defSettings with no_bridges := true }) ∧
    (test_tor_clicked uiBase defSettings).effects
        = [Effect.torConStart
            { applyConnectionFields uiBase defSettings with no_bridges := true }
            true] :=
  (c2_persistence_contract_amended uiBase defSettings defSettings false false
      false).1
    { applyConnectionFields uiBase defSettings with no_bridges := true } rfl

end TorSettings
